import Mathlib

/-
A shallow embedding of the RPC correlation and dispatch engine of
fastapi_websocket_rpc (file rpc_channel.py), together with proofs about it.

Modelling conventions:
- Python dicts keyed by call-id strings become association lists
  `List (String × α)` with lookup / insert / erase helpers whose observable
  behaviour (lookup) matches dict semantics.
- `self.requests : Dict[str, RpcPromise]` stores shared references to
  `RpcPromise` objects: the same object is held by the caller as a handle.
  We model the promise heap explicitly: `promiseEvents` maps a call-id to the
  event state of the `RpcPromise` object allocated for that call-id; the
  `requests` field keeps the dict's key set (each key's value is the reference
  to the promise of that id).  Deleting a key from `requests` does not clear
  the promise object's event, exactly as in Python.
- `await`-able methods become pure state transformers; a Python exception
  becomes `Except.error` with a `PyError` describing the raised exception.
- The pydantic schema layer (`RpcMessage.parse_raw`) is an external
  collaborator; `on_message` is parametrised by a decoder
  `String → Except DecodeFailure RpcMessage` whose `error` case is the
  `ValidationError` that `parse_raw` raises on malformed input.
- The methods object (`RpcMethodsBase`, not part of the dispatch core) is an
  attribute map: `getattr(self.methods, name)` is a lookup in that map, which
  raises `AttributeError` when the name is bound to no attribute.
-/

namespace RpcCore

/-- Wire values carried in requests and responses. `vnone` models Python's
`None`. -/
inductive Value where
  | vstr : String → Value
  | vint : Int → Value
  | vnone : Value
deriving DecidableEq

/-- Python's `str(result)` on our value universe. -/
def pyStr : Value → String
  | .vstr s => s
  | .vint n => toString n
  | .vnone => "None"

/-- Whether `type(result) is str`. -/
def Value.isStr : Value → Bool
  | .vstr _ => true
  | _ => false

/-- A return-type tag, as obtained from a method's signature. `RetType.name`
is the Python `__name__` of the type. -/
inductive RetType where
  | str : RetType
  | int : RetType
  | other : String → RetType
deriving DecidableEq

/-- Python `type.__name__` for a return-type tag. -/
def RetType.name : RetType → String
  | .str => "str"
  | .int => "int"
  | .other s => s

/-- RpcRequest (schemas.py): method name, named arguments, correlation id. -/
structure RpcRequest where
  method : String
  arguments : List (String × Value)
  call_id : String
deriving DecidableEq

/-- RpcResponse (schemas.py): correlation id (optional on the wire), result
value and the name of its type. -/
structure RpcResponse where
  call_id : Option String
  result : Value
  result_type : String
deriving DecidableEq

/-- RpcMessage (schemas.py): the envelope carrying a request and/or a
response field, each optional. -/
structure RpcMessage where
  request : Option RpcRequest
  response : Option RpcResponse
deriving DecidableEq

/-- A Python exception escaping one of the channel methods:
`attributeError name` is the `AttributeError` raised by `getattr` on a
missing attribute, `keyError k` the `KeyError` raised by a dict lookup or
deletion on a missing key. -/
inductive PyError where
  | attributeError : String → PyError
  | keyError : String → PyError
deriving DecidableEq

/-- The error raised by the external `RpcMessage.parse_raw` on malformed
input: a pydantic `ValidationError` (the only exception `on_message`
catches). -/
inductive DecodeFailure where
  | validationFailure : DecodeFailure
deriving DecidableEq

/-- The result of a method invocation: either the `NoResponse` sentinel from
rpc_methods.py, or an actual value. -/
inductive MethodResult where
  | noResponse : MethodResult
  | value : Value → MethodResult

/-- One attribute of the methods object: whether it is callable, its
signature's return annotation (`none` models `inspect._empty`), and the
invocation itself as a pure function of the named arguments. -/
structure RpcMethodAttr where
  callable : Bool
  retAnnot : Option RetType
  run : List (String × Value) → MethodResult

/-- The methods object passed to the channel: its full attribute map, as seen
by `getattr`. -/
structure RpcMethodsObj where
  attrs : List (String × RpcMethodAttr)

/-- Dict lookup on an association list (first matching key wins). -/
def lookupKV {α : Type} : List (String × α) → String → Option α
  | [], _ => none
  | (k, v) :: t, c => if k = c then some v else lookupKV t c

/-- Dict deletion: drop every binding of the key. -/
def eraseKV {α : Type} : List (String × α) → String → List (String × α)
  | [], _ => []
  | (k, v) :: t, c => if k = c then eraseKV t c else (k, v) :: eraseKV t c

/-- Dict assignment `d[k] = v`: bind the key, shadowing any old binding. -/
def insertKV {α : Type} (l : List (String × α)) (c : String) (v : α) :
    List (String × α) :=
  (c, v) :: eraseKV l c

/-- Key-set deletion (for the `requests` dict, whose values are promise
references identified by their key). -/
def eraseId : List String → String → List String
  | [], _ => []
  | k :: t, c => if k = c then eraseId t c else k :: eraseId t c

/-- Key-set insertion for the `requests` dict. -/
def insertId (l : List String) (c : String) : List String :=
  c :: eraseId l c

/-- The mutable state of one `RpcChannel`:
`requests` is the key set of the pending-call dict `self.requests`;
`responses` is the delivered-response dict `self.responses`;
`promiseEvents` is the heap of `RpcPromise` event flags, keyed by the
promise's call-id (shared between the dict value and the caller's handle);
`sent` is the sequence of envelopes passed to `self.send`. -/
structure RpcChannel where
  requests : List String
  responses : List (String × RpcResponse)
  promiseEvents : List (String × Bool)
  sent : List RpcMessage
deriving DecidableEq

/-- A freshly constructed channel: empty pending table, no delivered
responses, nothing sent. -/
def initChannel : RpcChannel :=
  { requests := [], responses := [], promiseEvents := [], sent := [] }

/-- The caller-side handle for a pending call: a reference to the
`RpcPromise` object, identified by its call-id (the object's event flag
lives in the channel's `promiseEvents` heap). -/
structure RpcPromise where
  call_id : String
deriving DecidableEq

/-- `get_return_type` (rpc_channel.py line 122): the signature's return
annotation, defaulting to `str` when the annotation is `_empty`. -/
def get_return_type (a : RpcMethodAttr) : RetType :=
  a.retAnnot.getD RetType.str

/-- Wrap a request in an envelope, as `RpcMessage(request=...)`. -/
def mkRequestMessage (req : RpcRequest) : RpcMessage :=
  { request := some req, response := none }

/-- `on_request` (rpc_channel.py lines 159-179): `getattr` the named
attribute of the methods object (raising `AttributeError` when absent); if it
is callable, invoke it; unless the result is the `NoResponse` sentinel,
compute the return type, stringify a non-string result when the type defaults
to `str`, and send a response envelope carrying the request's call-id. -/
def on_request (ch : RpcChannel) (m : RpcMethodsObj) (message : RpcRequest) :
    Except PyError RpcChannel :=
  match lookupKV m.attrs message.method with
  | none => .error (.attributeError message.method)
  | some a =>
    if a.callable then
      match a.run message.arguments with
      | .noResponse => .ok ch
      | .value result =>
        let result_type := get_return_type a
        let result :=
          if result_type = RetType.str ∧ result.isStr = false then
            Value.vstr (pyStr result)
          else result
        let response : RpcMessage :=
          { request := none,
            response := some { call_id := some message.call_id,
                               result := result,
                               result_type := result_type.name } }
        .ok { ch with sent := ch.sent ++ [response] }
    else .ok ch

/-- `on_response` (rpc_channel.py lines 181-192): when the response's call-id
is not `None` and is a key of `self.requests`, store the response in
`self.responses` and set the event of the promise referenced by that key;
otherwise do nothing. -/
def on_response (ch : RpcChannel) (response : RpcResponse) : RpcChannel :=
  match response.call_id with
  | none => ch
  | some cid =>
    if cid ∈ ch.requests then
      { ch with responses := insertKV ch.responses cid response,
                promiseEvents := insertKV ch.promiseEvents cid true }
    else ch

/-- The code's guard `response.call_id is not None and response.call_id in
self.requests`, as a boolean. -/
def knownCallId (ch : RpcChannel) (r : RpcResponse) : Bool :=
  match r.call_id with
  | none => false
  | some cid => decide (cid ∈ ch.requests)

/-- The possible outcomes of running `wait_for_response` to completion:
it can suspend forever on `promise.wait()` (`blocked`), raise (`errored`),
or return a response with the updated channel state (`done`). -/
inductive WaitOutcome where
  | blocked : WaitOutcome
  | errored : PyError → WaitOutcome
  | done : RpcChannel → RpcResponse → WaitOutcome
deriving DecidableEq

/-- `wait_for_response` (rpc_channel.py lines 194-202): `await promise.wait()`
suspends until the promise object's event is set; then
`self.responses[promise.call_id]` is read (a `KeyError` when absent), the
pending entry and the delivered response are deleted
(`del self.requests[...]`, a `KeyError` when absent), and the response is
returned. -/
def wait_for_response (ch : RpcChannel) (promise : RpcPromise) : WaitOutcome :=
  if (lookupKV ch.promiseEvents promise.call_id).getD false = true then
    match lookupKV ch.responses promise.call_id with
    | none => .errored (.keyError promise.call_id)
    | some response =>
      if promise.call_id ∈ ch.requests then
        .done { ch with requests := eraseId ch.requests promise.call_id,
                        responses := eraseKV ch.responses promise.call_id }
          response
      else .errored (.keyError promise.call_id)
  else .blocked

/-- The response a finished `wait_for_response` returned, if any. -/
def returnedResponse : WaitOutcome → Option RpcResponse
  | .done _ r => some r
  | _ => none

/-- First half of `async_call` (rpc_channel.py lines 209-212): build the
request envelope and `await self.send(msg.json())`.  Control can be yielded
to the receive path at this `await`, before the second half runs. -/
def async_call_sendPhase (ch : RpcChannel) (name : String)
    (args : List (String × Value)) (cid : String) : RpcChannel × RpcRequest :=
  let req : RpcRequest := { method := name, arguments := args, call_id := cid }
  ({ ch with sent := ch.sent ++ [mkRequestMessage req] }, req)

/-- Second half of `async_call` (rpc_channel.py line 213): allocate the
`RpcPromise` (event unset) and register it in `self.requests`. -/
def async_call_registerPhase (ch : RpcChannel) (req : RpcRequest) :
    RpcChannel × RpcPromise :=
  ({ ch with promiseEvents := insertKV ch.promiseEvents req.call_id false,
             requests := insertId ch.requests req.call_id },
   { call_id := req.call_id })

/-- `async_call` (rpc_channel.py lines 204-214), run without interleaving:
send the request, then register the pending call, returning the promise
handle.  The send phase strictly precedes the register phase. -/
def async_call (ch : RpcChannel) (name : String)
    (args : List (String × Value)) (cid : String) : RpcChannel × RpcPromise :=
  let s := async_call_sendPhase ch name args cid
  async_call_registerPhase s.1 s.2

/-- `on_message` (rpc_channel.py lines 138-150): decode the envelope with the
external parser; on a `ValidationError` log and drop the message; otherwise
handle the request field (when present) and then the response field (when
present).  Exceptions other than `ValidationError` (e.g. the `AttributeError`
from `on_request`) are not caught and propagate to the caller. -/
def on_message (decode : String → Except DecodeFailure RpcMessage)
    (m : RpcMethodsObj) (ch : RpcChannel) (data : String) :
    Except PyError RpcChannel :=
  match decode data with
  | .error _ => .ok ch
  | .ok message =>
    match (match message.request with
           | some req => on_request ch m req
           | none => .ok ch) with
    | .error e => .error e
    | .ok ch1 =>
      .ok (match message.response with
           | some resp => on_response ch1 resp
           | none => ch1)

/-- One outgoing call as issued by a test driver: method, arguments and the
fresh call-id drawn for it. -/
structure CallSpec where
  method : String
  arguments : List (String × Value)
  call_id : String
deriving DecidableEq

/-- Issue a batch of calls back-to-back through `async_call` without awaiting
any of them. -/
def issueCalls : RpcChannel → List CallSpec → RpcChannel
  | ch, [] => ch
  | ch, s :: rest => issueCalls (async_call ch s.method s.arguments s.call_id).1 rest

/-- Feed a batch of incoming responses to `on_response`, in arrival order. -/
def processResponses : RpcChannel → List RpcResponse → RpcChannel
  | ch, [] => ch
  | ch, r :: rest => processResponses (on_response ch r) rest

/-! Concrete instances used to evaluate the operations on closed inputs. -/

/-- An exposed method `add` with declared return type `int`, as in the spec's
example scenario. -/
def addAttr : RpcMethodAttr :=
  { callable := true, retAnnot := some RetType.int,
    run := fun _ => MethodResult.value (Value.vint 3) }

/-- An exposed fire-and-forget method returning the `NoResponse` sentinel. -/
def notifyAttr : RpcMethodAttr :=
  { callable := true, retAnnot := none,
    run := fun _ => MethodResult.noResponse }

/-- The `copy` infrastructure member of the methods object (invoked by the
channel constructor, rpc_channel.py line 100); not a declared exposed
method. -/
def copyAttr : RpcMethodAttr :=
  { callable := true, retAnnot := none,
    run := fun _ => MethodResult.value Value.vnone }

/-- The `set_channel` infrastructure member of the methods object (invoked by
the channel constructor, rpc_channel.py line 102); it returns `None` and is
not a declared exposed method. -/
def setChannelAttr : RpcMethodAttr :=
  { callable := true, retAnnot := none,
    run := fun _ => MethodResult.value Value.vnone }

/-- Modelled from the spec: the capability-set contract (spec section 6, the
methods object of rpc_methods.py which is not part of the dispatch core)
exposes infrastructure members `copy` and `set_channel` — both are invoked by
the channel constructor at rpc_channel.py lines 100-102, so they are callable
attributes of the object — besides the declared exposed methods, here `add`
and `notify`. -/
def demoMethods : RpcMethodsObj :=
  { attrs := [(("add"), addAttr), (("notify"), notifyAttr), (("copy"), copyAttr),
              (("set_channel"), setChannelAttr)] }

/-- The declared exposed methods of `demoMethods`, in the spec's sense: the
operations the endpoint means to offer remotely (`copy` and `set_channel` are
channel plumbing, not exposed operations). -/
def demoExposedNames : List String := [("add"), ("notify")]

/-- A response for call-id c1, as the remote side would produce for the
request sent by `async_call`. -/
def respC1 : RpcResponse :=
  { call_id := some ("c1"), result := Value.vint 3, result_type := "int" }

/-- Channel state right after the send phase of `async_call` for call c1:
the request bytes are out, the pending entry is not yet registered. -/
def chC1sent : RpcChannel := (async_call_sendPhase initChannel ("add") [] ("c1")).1

/-- The request built by that send phase. -/
def reqC1 : RpcRequest := (async_call_sendPhase initChannel ("add") [] ("c1")).2

/-- The dispatcher processes the response for c1 at the `await send`
suspension point, before `async_call` resumes. -/
def chC1raced : RpcChannel := on_response chC1sent respC1

/-- `async_call` then resumes and registers the pending call. -/
def c1Reg : RpcChannel × RpcPromise := async_call_registerPhase chC1raced reqC1

/-- A request for a method name absent from the methods object. -/
def reqMultiply : RpcRequest :=
  { method := "multiply", arguments := [(("a"), Value.vint 2), (("b"), Value.vint 3)],
    call_id := "c2" }

/-- A decoder (external parser) that yields a request envelope for
`reqMultiply`. -/
def decodeMultiply : String → Except DecodeFailure RpcMessage :=
  fun _ => .ok { request := some reqMultiply, response := none }

/-- A decoder that fails with a `ValidationError` on every input, as
`RpcMessage.parse_raw` does on malformed data. -/
def decodeGarbage : String → Except DecodeFailure RpcMessage :=
  fun _ => .error DecodeFailure.validationFailure

/-- Two calls issued back-to-back, as in the spec's ping/pong scenario. -/
def demoCalls : List CallSpec := [⟨("ping"), [], ("a")⟩, ⟨("pong"), [], ("b")⟩]

/-- The response matching call a. -/
def respA : RpcResponse :=
  { call_id := some ("a"), result := Value.vstr ("pong-a"), result_type := "str" }

/-- The response matching call b. -/
def respB : RpcResponse :=
  { call_id := some ("b"), result := Value.vstr ("pong-b"), result_type := "str" }

/-- The response matching call c5. -/
def respC5 : RpcResponse :=
  { call_id := some ("c5"), result := Value.vint 7, result_type := "int" }

/-- A channel with two pending calls (c5 and other) whose response for c5 has
arrived. -/
def chC5 : RpcChannel :=
  on_response (issueCalls initChannel [⟨("m"), [], ("c5")⟩, ⟨("n"), [], ("other")⟩]) respC5

/-- The state `wait_for_response` hands back after consuming c5. -/
def chC5done : RpcChannel :=
  { requests := [("other")], responses := [],
    promiseEvents := [(("c5"), true), (("other"), false)],
    sent := [mkRequestMessage ⟨("m"), [], ("c5")⟩, mkRequestMessage ⟨("n"), [], ("other")⟩] }

/-- A channel with a single pending call c6. -/
def chC6 : RpcChannel := (async_call initChannel ("ping") [] ("c6")).1

/-- A response whose call-id matches no pending call. -/
def respUnknown : RpcResponse :=
  { call_id := some ("zz"), result := Value.vint 1, result_type := "int" }

/-- A fire-and-forget request for the `notify` method. -/
def reqNotify : RpcRequest := { method := "notify", arguments := [], call_id := "c7" }

/-- The response matching call c8. -/
def respC8 : RpcResponse :=
  { call_id := some ("c8"), result := Value.vstr ("pong"), result_type := "str" }

/-- A channel with pending call c8 whose response has arrived. -/
def chC8 : RpcChannel := on_response (async_call initChannel ("ping") [] ("c8")).1 respC8

/-- The state after the first `wait_for_response` consumed c8: the entry is
gone from both maps, but the promise object's event stays set. -/
def chC8done : RpcChannel :=
  { requests := [], responses := [], promiseEvents := [(("c8"), true)],
    sent := [mkRequestMessage ⟨("ping"), [], ("c8")⟩] }

/-- A request naming the non-exposed `set_channel` member. -/
def reqSetChannel : RpcRequest :=
  { method := "set_channel", arguments := [], call_id := "c9" }

/-- The envelope `on_request` emits after invoking `set_channel`: the `None`
result is stringified under the default `str` return type. -/
def msgSetChannelResp : RpcMessage :=
  { request := none,
    response := some { call_id := some ("c9"), result := Value.vstr ("None"),
                       result_type := "str" } }

/-- A response addressed to nobody, delivered in the same envelope as a
request. -/
def respUnknownB : RpcResponse :=
  { call_id := some ("nobody"), result := Value.vint 9, result_type := "int" }

/-- An envelope carrying both a request and a response field. -/
def msgBoth : RpcMessage := { request := some reqNotify, response := some respUnknownB }

/-- A decoder yielding the double-field envelope. -/
def decodeBoth : String → Except DecodeFailure RpcMessage := fun _ => .ok msgBoth

/-! Lemmas about the dict helpers. -/

theorem lookupKV_eraseKV_self {α : Type} (l : List (String × α)) (c : String) :
    lookupKV (eraseKV l c) c = none := by
  induction l with
  | nil => rfl
  | cons kv t ih =>
    obtain ⟨k, v⟩ := kv
    by_cases h : k = c
    · simp [eraseKV, h, ih]
    · simp [eraseKV, lookupKV, h, ih]

theorem lookupKV_eraseKV_ne {α : Type} (l : List (String × α)) (c c' : String)
    (h : c' ≠ c) : lookupKV (eraseKV l c) c' = lookupKV l c' := by
  induction l with
  | nil => rfl
  | cons kv t ih =>
    obtain ⟨k, v⟩ := kv
    by_cases hk : k = c
    · subst hk
      simp [eraseKV, lookupKV, Ne.symm h, ih]
    · simp only [eraseKV, if_neg hk, lookupKV]
      by_cases hk' : k = c'
      · simp [hk']
      · simp [hk', ih]

theorem lookupKV_insertKV_self {α : Type} (l : List (String × α)) (c : String)
    (v : α) : lookupKV (insertKV l c v) c = some v := by
  simp [insertKV, lookupKV]

theorem lookupKV_insertKV_ne {α : Type} (l : List (String × α)) (c c' : String)
    (v : α) (h : c' ≠ c) : lookupKV (insertKV l c v) c' = lookupKV l c' := by
  simp only [insertKV, lookupKV, if_neg (Ne.symm h)]
  exact lookupKV_eraseKV_ne l c c' h

theorem not_mem_eraseId_self (l : List String) (c : String) :
    c ∉ eraseId l c := by
  induction l with
  | nil => simp [eraseId]
  | cons k t ih =>
    by_cases h : k = c
    · simpa [eraseId, h] using ih
    · simp [eraseId, h, ih, Ne.symm h]

theorem mem_eraseId_ne (l : List String) (c c' : String) (h : c' ≠ c) :
    c' ∈ eraseId l c ↔ c' ∈ l := by
  induction l with
  | nil => simp [eraseId]
  | cons k t ih =>
    by_cases hk : k = c
    · subst hk
      simp [eraseId, ih, h]
    · simp [eraseId, hk, ih]

theorem mem_insertId (l : List String) (c c' : String) :
    c' ∈ insertId l c ↔ c' = c ∨ c' ∈ l := by
  by_cases h : c' = c
  · simp [insertId, h]
  · simp [insertId, h, mem_eraseId_ne l c c' h]

/-! Lemmas about `on_response` and batched processing. -/

theorem on_response_requests (ch : RpcChannel) (r : RpcResponse) :
    (on_response ch r).requests = ch.requests := by
  unfold on_response
  cases r.call_id with
  | none => rfl
  | some cid =>
    by_cases h : cid ∈ ch.requests
    · simp [h]
    · simp [h]

theorem on_response_lookup_ne (ch : RpcChannel) (r : RpcResponse) (c : String)
    (h : r.call_id ≠ some c) :
    lookupKV (on_response ch r).responses c = lookupKV ch.responses c ∧
    lookupKV (on_response ch r).promiseEvents c = lookupKV ch.promiseEvents c := by
  unfold on_response
  cases hc : r.call_id with
  | none => exact ⟨rfl, rfl⟩
  | some cid =>
    have hcid : c ≠ cid := by
      intro he
      exact h (by rw [hc, he])
    by_cases hm : cid ∈ ch.requests
    · simp only [if_pos hm]
      exact ⟨lookupKV_insertKV_ne _ _ _ _ hcid, lookupKV_insertKV_ne _ _ _ _ hcid⟩
    · simp [hm]

theorem on_response_store (ch : RpcChannel) (r : RpcResponse) (c : String)
    (h : r.call_id = some c) (hm : c ∈ ch.requests) :
    lookupKV (on_response ch r).responses c = some r ∧
    lookupKV (on_response ch r).promiseEvents c = some true := by
  unfold on_response
  rw [h]
  simp only [if_pos hm]
  exact ⟨lookupKV_insertKV_self _ _ _, lookupKV_insertKV_self _ _ _⟩

theorem processResponses_requests (rs : List RpcResponse) (ch : RpcChannel) :
    (processResponses ch rs).requests = ch.requests := by
  induction rs generalizing ch with
  | nil => rfl
  | cons r rest ih =>
    simp [processResponses, ih, on_response_requests]

theorem processResponses_stable (rs : List RpcResponse) (ch : RpcChannel)
    (c : String) (r : RpcResponse) (hm : c ∈ ch.requests)
    (hl : lookupKV ch.responses c = some r)
    (he : lookupKV ch.promiseEvents c = some true)
    (hu : ∀ rr ∈ rs, rr.call_id = some c → rr = r) :
    lookupKV (processResponses ch rs).responses c = some r ∧
    lookupKV (processResponses ch rs).promiseEvents c = some true := by
  induction rs generalizing ch with
  | nil => exact ⟨hl, he⟩
  | cons r0 rest ih =>
    by_cases h0 : r0.call_id = some c
    · have hr0 : r0 = r := hu r0 (List.mem_cons_self r0 rest) h0
      subst hr0
      obtain ⟨hl', he'⟩ := on_response_store ch r0 c h0 hm
      exact ih (on_response ch r0) ((on_response_requests ch r0).symm ▸ hm)
        hl' he' (fun rr hrr => hu rr (List.mem_cons_of_mem r0 hrr))
    · obtain ⟨hl', he'⟩ := on_response_lookup_ne ch r0 c h0
      exact ih (on_response ch r0) ((on_response_requests ch r0).symm ▸ hm)
        (hl'.trans hl) (he'.trans he)
        (fun rr hrr => hu rr (List.mem_cons_of_mem r0 hrr))

theorem processResponses_delivers (rs : List RpcResponse) (ch : RpcChannel)
    (c : String) (r : RpcResponse) (hm : c ∈ ch.requests) (hr : r ∈ rs)
    (hrc : r.call_id = some c)
    (hu : ∀ rr ∈ rs, rr.call_id = some c → rr = r) :
    lookupKV (processResponses ch rs).responses c = some r ∧
    lookupKV (processResponses ch rs).promiseEvents c = some true := by
  induction rs generalizing ch with
  | nil => cases hr
  | cons r0 rest ih =>
    by_cases h0 : r0.call_id = some c
    · have hr0 : r0 = r := hu r0 (List.mem_cons_self r0 rest) h0
      subst hr0
      obtain ⟨hl', he'⟩ := on_response_store ch r0 c h0 hm
      exact processResponses_stable rest (on_response ch r0) c r0
        ((on_response_requests ch r0).symm ▸ hm) hl' he'
        (fun rr hrr => hu rr (List.mem_cons_of_mem r0 hrr))
    · have hr' : r ∈ rest := by
        rcases List.mem_cons.mp hr with h | h
        · exact absurd (h ▸ hrc) h0
        · exact h
      exact ih (on_response ch r0) ((on_response_requests ch r0).symm ▸ hm) hr'
        (fun rr hrr => hu rr (List.mem_cons_of_mem r0 hrr))

/-! Lemmas about `async_call` and batched issuing. -/

theorem async_call_fst (ch : RpcChannel) (n : String)
    (a : List (String × Value)) (c : String) :
    (async_call ch n a c).1 =
      { ch with
        sent := ch.sent ++ [mkRequestMessage
          { method := n, arguments := a, call_id := c }],
        promiseEvents := insertKV ch.promiseEvents c false,
        requests := insertId ch.requests c } := rfl

theorem issueCalls_responses (l : List CallSpec) (ch : RpcChannel) :
    (issueCalls ch l).responses = ch.responses := by
  induction l generalizing ch with
  | nil => rfl
  | cons s rest ih =>
    simp [issueCalls, async_call_fst, ih]

theorem mem_requests_issueCalls (l : List CallSpec) (ch : RpcChannel)
    (c : String) :
    c ∈ (issueCalls ch l).requests ↔
      c ∈ l.map CallSpec.call_id ∨ c ∈ ch.requests := by
  induction l generalizing ch with
  | nil => simp [issueCalls]
  | cons s rest ih =>
    simp only [issueCalls, async_call_fst, ih, List.map_cons, List.mem_cons,
      mem_insertId]
    tauto

/-! The claims. -/

/-- C1: the claim says the pending-call entry is registered before the request
bytes are considered sent.  In the code the `await self.send` (rpc_channel.py
line 212) strictly precedes the registration (line 213): after the send phase
the request is on the wire (`sent ≠ []`) while c1 is not yet registered, so a
response for c1 processed by the dispatcher at that suspension point is
silently discarded (`on_response` leaves the state unchanged), and after the
registration finally runs the call blocks forever (its event is never set). -/
theorem async_call_send_precedes_registration_drops_response :
    chC1sent.sent ≠ [] ∧ ("c1") ∉ chC1sent.requests ∧
    chC1raced = chC1sent ∧
    wait_for_response c1Reg.1 c1Reg.2 = WaitOutcome.blocked := by
  refine ⟨by decide, by decide, by decide, by decide⟩

/-- C2: the claim says an absent method name fails with an
`UnknownMethodException`-class error that is surfaced, never an unrelated
crash of the dispatch loop.  In the code `getattr` (rpc_channel.py line 168)
raises `AttributeError` for the absent name, `on_message` catches only
`ValidationError` (line 149), so the `AttributeError` escapes `on_message`
and crashes the dispatch loop; `UnknownMethodException` (line 19) is never
raised and no error response is sent. -/
theorem unknown_method_crashes_dispatch :
    on_request initChannel demoMethods reqMultiply =
      .error (.attributeError ("multiply")) ∧
    on_message decodeMultiply demoMethods initChannel ("raw") =
      .error (.attributeError ("multiply")) := by
  refine ⟨rfl, rfl⟩

/-- C3: for every inbound message whose decode fails (the external parser
raises `ValidationError`), `on_message` does not raise: it returns normally
with the channel state unchanged, so subsequent messages are processed
exactly as if the malformed one had never arrived. -/
theorem on_message_malformed_is_noop
    (decode : String → Except DecodeFailure RpcMessage) (m : RpcMethodsObj)
    (ch : RpcChannel) (data : String) (e : DecodeFailure)
    (h : decode data = .error e) : on_message decode m ch data = .ok ch := by
  unfold on_message
  rw [h]

/-- Witness for C3 at a concrete malformed input. -/
theorem on_message_malformed_is_noop_witness :
    decodeGarbage ("not-json") = .error DecodeFailure.validationFailure ∧
    on_message decodeGarbage demoMethods initChannel ("not-json") = .ok initChannel :=
  ⟨rfl, on_message_malformed_is_noop decodeGarbage demoMethods initChannel
    ("not-json") DecodeFailure.validationFailure rfl⟩

/-- C4: for calls issued with distinct call-ids, whatever order their
responses are delivered in, waiting on a call's promise returns exactly the
response carrying that call's own call-id (no crosstalk). -/
theorem call_correlation_no_crosstalk
    (calls : List CallSpec) (hnodup : (calls.map CallSpec.call_id).Nodup)
    (rs : List RpcResponse) (c : String) (r : RpcResponse)
    (hc : c ∈ calls.map CallSpec.call_id) (hr : r ∈ rs)
    (hrc : r.call_id = some c)
    (hu : ∀ rr ∈ rs, rr.call_id = some c → rr = r) :
    returnedResponse
      (wait_for_response (processResponses (issueCalls initChannel calls) rs)
        { call_id := c }) = some r ∧ r.call_id = some c := by
  have hm0 : c ∈ (issueCalls initChannel calls).requests := by
    rw [mem_requests_issueCalls]
    exact Or.inl hc
  obtain ⟨hlr, hle⟩ :=
    processResponses_delivers rs (issueCalls initChannel calls) c r hm0 hr hrc hu
  have hmem : c ∈ (processResponses (issueCalls initChannel calls) rs).requests := by
    rw [processResponses_requests]
    exact hm0
  refine ⟨?_, hrc⟩
  unfold wait_for_response
  simp [hlr, hle, hmem, returnedResponse]

/-- Witness for C4: ping/pong issued back-to-back, responses delivered in
reverse order, the caller of a receives exactly its own response. -/
theorem call_correlation_no_crosstalk_witness :
    (demoCalls.map CallSpec.call_id).Nodup ∧
    returnedResponse
      (wait_for_response (processResponses (issueCalls initChannel demoCalls)
        [respB, respA]) { call_id := ("a") }) = some respA :=
  ⟨by decide, (call_correlation_no_crosstalk demoCalls (by decide) [respB, respA]
    ("a") respA (by decide) (by decide) rfl (by decide)).1⟩

/-- C5: when `wait_for_response` completes, the consumed call-id is deleted
from both the pending table and the delivered-response map, and every other
call-id's entries in both maps are untouched. -/
theorem wait_for_response_leak_free (ch ch' : RpcChannel) (p : RpcPromise)
    (r : RpcResponse) (hw : wait_for_response ch p = WaitOutcome.done ch' r) :
    lookupKV ch'.responses p.call_id = none ∧ p.call_id ∉ ch'.requests ∧
    (∀ c, c ≠ p.call_id → lookupKV ch'.responses c = lookupKV ch.responses c) ∧
    (∀ c, c ≠ p.call_id → (c ∈ ch'.requests ↔ c ∈ ch.requests)) := by
  unfold wait_for_response at hw
  split at hw
  · split at hw
    · cases hw
    · split at hw
      · injection hw with h1 h2
        subst h1
        refine ⟨lookupKV_eraseKV_self _ _, not_mem_eraseId_self _ _, ?_, ?_⟩
        · intro c hc
          exact lookupKV_eraseKV_ne _ _ _ hc
        · intro c hc
          exact mem_eraseId_ne _ _ _ hc
      · cases hw
  · cases hw

/-- Witness for C5 at a concrete completed call (a second pending call
`other` is untouched). -/
theorem wait_for_response_leak_free_witness :
    wait_for_response chC5 { call_id := ("c5") } = WaitOutcome.done chC5done respC5 ∧
    lookupKV chC5done.responses ("c5") = none ∧ ("c5") ∉ chC5done.requests ∧
    lookupKV chC5done.responses ("other") = lookupKV chC5.responses ("other") ∧
    (("other") ∈ chC5done.requests ↔ ("other") ∈ chC5.requests) := by
  have hw : wait_for_response chC5 { call_id := ("c5") } =
      WaitOutcome.done chC5done respC5 := by decide
  have h := wait_for_response_leak_free chC5 chC5done { call_id := ("c5") } respC5 hw
  exact ⟨hw, h.1, h.2.1, h.2.2.1 ("other") (by decide), h.2.2.2 ("other") (by decide)⟩

/-- C6: an incoming response whose call-id is `None` or not a key of the
pending table is silently discarded: `on_response` raises nothing and leaves
the channel state — both maps and every other pending call — unchanged. -/
theorem on_response_unknown_id_discarded (ch : RpcChannel) (r : RpcResponse)
    (h : knownCallId ch r = false) : on_response ch r = ch := by
  unfold knownCallId at h
  unfold on_response
  cases hc : r.call_id with
  | none => rfl
  | some cid =>
    rw [hc] at h
    simp only [decide_eq_false_iff_not] at h
    simp [h]

/-- Witness for C6 at a concrete unknown call-id. -/
theorem on_response_unknown_id_witness :
    knownCallId chC6 respUnknown = false ∧ on_response chC6 respUnknown = chC6 :=
  ⟨by decide, on_response_unknown_id_discarded chC6 respUnknown (by decide)⟩

/-- C7: when the invoked method's result is the `NoResponse` sentinel,
`on_request` returns with the channel state unchanged — in particular nothing
is appended to `sent`, i.e. zero outbound bytes for that request. -/
theorem on_request_noresponse_sends_nothing (ch : RpcChannel)
    (m : RpcMethodsObj) (req : RpcRequest) (a : RpcMethodAttr)
    (hl : lookupKV m.attrs req.method = some a) (hc : a.callable = true)
    (hr : a.run req.arguments = MethodResult.noResponse) :
    on_request ch m req = .ok ch := by
  unfold on_request
  rw [hl]
  simp [hc, hr]

/-- Witness for C7 at the concrete fire-and-forget method `notify`. -/
theorem on_request_noresponse_witness :
    lookupKV demoMethods.attrs ("notify") = some notifyAttr ∧
    notifyAttr.callable = true ∧
    notifyAttr.run [] = MethodResult.noResponse ∧
    on_request initChannel demoMethods reqNotify = .ok initChannel :=
  ⟨rfl, rfl, rfl, on_request_noresponse_sends_nothing initChannel demoMethods
    reqNotify notifyAttr rfl rfl rfl⟩

/-- C8: once `wait_for_response` has completed for a promise (deleting the
bookkeeping entries), waiting on the same promise a second time deterministically
fails with a `KeyError` on that call-id — the `UnknownCallId`-class error —
because the promise object's event is still set while the delivered-response
entry is gone. -/
theorem second_wait_fails_unknown_call_id (ch ch' : RpcChannel)
    (p : RpcPromise) (r : RpcResponse)
    (hw : wait_for_response ch p = WaitOutcome.done ch' r) :
    wait_for_response ch' p = WaitOutcome.errored (.keyError p.call_id) := by
  unfold wait_for_response at hw
  split at hw
  · rename_i hev
    split at hw
    · cases hw
    · split at hw
      · injection hw with h1 h2
        subst h1
        unfold wait_for_response
        simp [hev, lookupKV_eraseKV_self]
      · cases hw
  · cases hw

/-- Witness for C8 at a concrete consumed call. -/
theorem second_wait_fails_witness :
    wait_for_response chC8 { call_id := ("c8") } = WaitOutcome.done chC8done respC8 ∧
    wait_for_response chC8done { call_id := ("c8") } =
      WaitOutcome.errored (.keyError ("c8")) :=
  ⟨by decide, second_wait_fails_unknown_call_id chC8 chC8done
    { call_id := ("c8") } respC8 (by decide)⟩

/-- C9 counterexample: the claim says a name that is not a declared exposed
method can never cause invocation of an unrelated attribute.  But resolution
is `getattr` over all attributes: a request naming the non-exposed
infrastructure member `set_channel` resolves to it, invokes it, and even
sends back a stringified `None` response. -/
theorem non_exposed_attribute_invoked :
    ("set_channel") ∉ demoExposedNames ∧
    (lookupKV demoMethods.attrs ("set_channel")).isSome = true ∧
    on_request initChannel demoMethods reqSetChannel =
      .ok { initChannel with sent := [msgSetChannelResp] } := by
  refine ⟨by decide, rfl, rfl⟩

/-- C9 amended: method-name resolution is a reflective attribute lookup over
the whole attribute map of the methods object, not a total function over
declared exposed names: the behaviour of `on_request` depends only on the
attribute bound to the requested name (so any callable attribute, exposed or
not, is invoked), and a name bound to no attribute raises `AttributeError`. -/
theorem method_resolution_reflective :
    (∀ (ch : RpcChannel) (m : RpcMethodsObj) (req : RpcRequest),
        lookupKV m.attrs req.method = none →
        on_request ch m req = .error (.attributeError req.method)) ∧
    (∀ (ch : RpcChannel) (m₁ m₂ : RpcMethodsObj) (req : RpcRequest),
        lookupKV m₁.attrs req.method = lookupKV m₂.attrs req.method →
        on_request ch m₁ req = on_request ch m₂ req) := by
  constructor
  · intro ch m req h
    unfold on_request
    rw [h]
  · intro ch m₁ m₂ req h
    unfold on_request
    rw [h]

/-- Witness for the amended C9 at a concrete absent name. -/
theorem method_resolution_reflective_witness :
    lookupKV demoMethods.attrs ("absent9") = none ∧
    on_request initChannel demoMethods
      { method := "absent9", arguments := [], call_id := "x9" } =
      .error (.attributeError ("absent9")) :=
  ⟨rfl, method_resolution_reflective.1 initChannel demoMethods
    { method := "absent9", arguments := [], call_id := "x9" } rfl⟩

/-- C10: an envelope carrying both a request and a response field is not
rejected: `on_message` dispatches the request first and then the response,
running `on_response` on the state produced by `on_request`. -/
theorem on_message_processes_both
    (decode : String → Except DecodeFailure RpcMessage) (m : RpcMethodsObj)
    (ch ch1 : RpcChannel) (data : String) (req : RpcRequest)
    (resp : RpcResponse)
    (hd : decode data = .ok { request := some req, response := some resp })
    (hreq : on_request ch m req = .ok ch1) :
    on_message decode m ch data = .ok (on_response ch1 resp) := by
  unfold on_message
  rw [hd]
  simp [hreq]

/-- Witness for C10 at a concrete double-field envelope. -/
theorem on_message_processes_both_witness :
    decodeBoth ("payload") = .ok msgBoth ∧
    on_request initChannel demoMethods reqNotify = .ok initChannel ∧
    on_message decodeBoth demoMethods initChannel ("payload") =
      .ok (on_response initChannel respUnknownB) :=
  ⟨rfl, rfl, on_message_processes_both decodeBoth demoMethods initChannel
    initChannel ("payload") reqNotify respUnknownB rfl rfl⟩

end RpcCore
